import Mathlib

set_option maxHeartbeats 1000000

/-!
Shallow embedding of `src/Python/oro.py`.

The script fetches a monthly gold-price series and a monthly Spanish CPI
series (both modelled here as input lists, since the fetch/parse steps are
external collaborators), filters the gold series to periods on/after
2000-01-01, inner-joins the two series on the period, builds a cumulative
CPI index by `100 * (1 + IPC/100).cumprod()`, deflates the nominal price by
`value * (index.iloc[0] / index)`, derives monthly / cumulative / annualized
real-change columns, writes the merged table to CSV, adds a `year` column,
computes a per-year CAGR map and a whole-period CAGR.

Dates are embedded as a day ordinal (`ord`, the proleptic day number used by
`Timestamp` subtraction in days) together with the calendar `year`
component used by `groupby("year")`.  Numeric columns are embedded as `ℚ`.
The two exception sites of the script are modelled explicitly:
`.iloc[0]` on the empty joined frame raises an index error, and `1/n_years`
raises a division-by-zero error exactly when `n_years = 0`.  The real-valued
power `x ** e` of the whole-period CAGR is `Real.rpow` applied to the
rational pair `(base, exponent)` produced by the arithmetic that precedes it.
-/

structure Period where
  ord : Int
  year : Int
deriving DecidableEq, Inhabited

structure PricePoint where
  period : Period
  value : ℚ
deriving DecidableEq, Inhabited

structure CpiRecord where
  period : Period
  IPC : ℚ
deriving DecidableEq, Inhabited

structure MergedRow where
  period : Period
  value : ℚ
  IPC : ℚ
deriving DecidableEq, Inhabited

/-- Day ordinal of 2000-01-01, the filter cutoff `df["period"] >= "2000-01-01"`. -/
def epoch2000 : Int := 730120

/-- Filter step: `df_oro = df[df["period"] >= "2000-01-01"][["period","value"]]`. -/
def filterSince2000 (gold : List PricePoint) : List PricePoint :=
  gold.filter fun p => decide (epoch2000 ≤ p.period.ord)

/-- Inner join on the period column: `pd.merge(df_oro, df_ipc, on="period", how="inner")`.
Row order follows the left (gold) frame; periods are unique in both series
per the data model, so each left row pairs with at most one right row. -/
def innerJoin (gold : List PricePoint) (ipc : List CpiRecord) : List MergedRow :=
  gold.filterMap fun g =>
    (ipc.find? fun c => decide (c.period = g.period)).map fun c =>
      ⟨g.period, g.value, c.IPC⟩

/-- Running product: `cumprodAux a [x0, x1, ...] = [a*x0, a*x0*x1, ...]`,
so `cumprodAux 100 l` is `100 * l.cumprod()` elementwise. -/
def cumprodAux (a : ℚ) : List ℚ → List ℚ
  | [] => []
  | x :: xs => (a * x) :: cumprodAux (a * x) xs

/-- Cumulative CPI index column: `100 * (1 + df["IPC"]/100).cumprod()`. -/
def IPC_indice (m : List MergedRow) : List ℚ :=
  cumprodAux 100 (m.map fun r => 1 + r.IPC / 100)

/-- Deflated price column:
`df["value"] * (df["IPC_indice"].iloc[0] / df["IPC_indice"])`.
The script only reaches this line on a non-empty frame (an empty join has
already raised at the `ipc_base` line), so the `getD 0 0` default is inert. -/
def value_real (m : List MergedRow) : List ℚ :=
  List.zipWith (fun v q => v * ((IPC_indice m).getD 0 0 / q))
    (m.map fun r => r.value) (IPC_indice m)

/-- Monthly real change column: `df["value_real"].pct_change() * 100`;
the first row is the missing-value marker `none`. -/
def real_monthly_change (vr : List ℚ) : List (Option ℚ) :=
  match vr with
  | [] => []
  | _ :: rest =>
    none :: List.zipWith (fun prev cur => some ((cur / prev - 1) * 100)) vr rest

/-- Cumulative real change column:
`(df["value_real"] / df["value_real"].iloc[0] - 1) * 100`. -/
def real_cumulative_change (vr : List ℚ) : List ℚ :=
  vr.map fun v => (v / vr.getD 0 0 - 1) * 100

/-- Annualized real change column:
`((1 + df["real_monthly_change"]/100) ** 12 - 1) * 100` (missing propagates). -/
def real_annualized_change (vr : List ℚ) : List (Option ℚ) :=
  (real_monthly_change vr).map (Option.map fun mc => ((1 + mc / 100) ^ 12 - 1) * 100)

/-- Per-year CAGR loop over `df.groupby("year")` (pandas iterates group keys in
sorted order).  For each year the loop computes
`(valor_final/valor_inicial) ** (12/n_months) - 1`; the entry records the
year together with the base `valor_final/valor_inicial` and the exponent
`12/n_months` fed to the floating-point power. -/
def cagr_per_year (m : List MergedRow) : List (Int × ℚ × ℚ) :=
  let paired := m.zip (value_real m)
  let years := ((m.map fun r => r.period.year).dedup).insertionSort (· ≤ ·)
  years.map fun y =>
    let group := paired.filter fun p => decide (p.1.period.year = y)
    let valor_inicial := (group.headD default).2
    let valor_final := (group.getLastD default).2
    let n_months := group.length
    (y, valor_final / valor_inicial, (12 : ℚ) / (n_months : ℚ))

/-- Whole-period year count:
`(df["period"].iloc[-1] - df["period"].iloc[0]).days / 365.25`. -/
def n_years (m : List MergedRow) : ℚ :=
  (((m.getLastD default).period.ord - (m.headD default).period.ord : Int) : ℚ) / (1461 / 4)

/-- The two exception sites of the script. -/
inductive Err where
  /-- Python IndexError from `.iloc[0]` on the empty joined frame (the ipc_base line). -/
  | indexOutOfBounds
  /-- Python ZeroDivisionError from `1 / n_years` when `n_years == 0.0`. -/
  | zeroDivision
deriving DecidableEq, Inhabited

/-- Whole-period CAGR arithmetic, lines 138-142 of the source:
`valor_inicial`/`valor_final` from `value_real`, then
`cagr = (valor_final/valor_inicial) ** (1/n_years) - 1`.
Python raises `ZeroDivisionError` at `1/n_years` exactly when `n_years` is
zero; otherwise the pair (power base, power exponent) is produced and fed to
the floating-point power, which itself never raises (a negative base with a
non-integer exponent yields a complex/NaN value, not an exception). -/
def wholeCagrStage (m : List MergedRow) : Except Err (ℚ × ℚ) :=
  let vr := value_real m
  let valor_inicial := vr.getD 0 0
  let valor_final := vr.getLastD 0
  let ny := n_years m
  if ny = 0 then Except.error Err.zeroDivision
  else Except.ok (valor_final / valor_inicial, 1 / ny)

/-- Whole-period CAGR value `(valor_final/valor_inicial) ** (1/n_years) - 1`
as a real number (the only transcendental step of the script). -/
noncomputable def cagr (m : List MergedRow) : Except Err ℝ :=
  (wholeCagrStage m).map fun p => Real.rpow (p.1 : ℝ) (p.2 : ℝ) - 1

/-- Output artifacts of the script, in the order the script emits them. -/
inductive Artifact where
  /-- First figure: nominal gold price (drawn before the merge). -/
  | chartNominal
  /-- Second figure: nominal vs real price. -/
  | chartNominalVsReal
  /-- Third figure: cumulative real change. -/
  | chartCumulative
  /-- Fourth figure: annualized real change. -/
  | chartAnnualized
  /-- The CSV write `df_oro_ipc.to_csv("precio_oro_eur.csv", index=False)`. -/
  | csvFile
  /-- Fifth figure: per-year CAGR bar chart. -/
  | chartCagrBar
deriving DecidableEq, Inhabited

/-- All artifacts, in the order the source emits them: four charts, the CSV,
then the bar chart; the whole-period CAGR computation comes after all of
them. -/
def fullArtifacts : List Artifact :=
  [Artifact.chartNominal, Artifact.chartNominalVsReal, Artifact.chartCumulative,
   Artifact.chartAnnualized, Artifact.csvFile, Artifact.chartCagrBar]

/-- Straight-line run of the script given the two fetched series: the artifact
list accumulated in program order, paired with the final outcome.  The
nominal-price chart is rendered before the merge; an empty join raises at the
`ipc_base = df_oro_ipc["IPC"].iloc[0]` line; every later stage up to and
including the bar chart is exception-free, and the whole-period CAGR stage
can raise only the `1/n_years` division-by-zero error, after all artifacts
are already out. -/
def runScript (gold : List PricePoint) (ipc : List CpiRecord) :
    List Artifact × Except Err Unit :=
  let merged := innerJoin (filterSince2000 gold) ipc
  if merged.isEmpty then
    ([Artifact.chartNominal], Except.error Err.indexOutOfBounds)
  else
    (fullArtifacts, (wholeCagrStage merged).map fun _ => ())

/-- Everything the engine computes from the two input series. -/
def computeAll (gold : List PricePoint) (ipc : List CpiRecord) :=
  let m := innerJoin (filterSince2000 gold) ipc
  let vr := value_real m
  (m, IPC_indice m, vr, real_monthly_change vr, real_cumulative_change vr,
   real_annualized_change vr, cagr_per_year m, wholeCagrStage m)

/-- Column-list evolution: a pandas assignment `df[c] = ...` appends `c` when
it is new. -/
def addColumn (cols : List String) (c : String) : List String :=
  if c ∈ cols then cols else cols ++ [c]

/-- Columns of `df_oro` after the filter/projection. -/
def df_oro_columns : List String := ["period", "value"]

/-- Columns of `df_ipc` after the rename. -/
def df_ipc_columns : List String := ["period", "IPC"]

/-- Columns after `pd.merge(..., on=key)`: left columns, then the right
columns other than the key. -/
def mergeColumns (left right : List String) (key : String) : List String :=
  left ++ right.filter fun c => decide (c ≠ key)

/-- Columns of `df_oro_ipc` at the `to_csv` call (line 113): the merge result
plus the five derived columns assigned before the write.  The `year` column
is assigned only at line 117, after the write. -/
def columnsAtWrite : List String :=
  addColumn (addColumn (addColumn (addColumn (addColumn
    (mergeColumns df_oro_columns df_ipc_columns "period")
    "IPC_indice") "value_real") "real_monthly_change")
    "real_cumulative_change") "real_annualized_change"

/-- Columns of `df_oro_ipc` after the year-column assignment at line 117. -/
def columnsFinal : List String := addColumn columnsAtWrite "year"

/-- Scaling every nominal value of the merged series by `k` (the claim C7
transformation; rates and periods untouched). -/
def scaleValues (k : ℚ) (m : List MergedRow) : List MergedRow :=
  m.map fun r => { r with value := k * r.value }

theorem cumprodAux_length (a : ℚ) (l : List ℚ) : (cumprodAux a l).length = l.length := by
  induction l generalizing a with
  | nil => rfl
  | cons x xs ih => simpa [cumprodAux] using ih (a * x)

theorem IPC_indice_length (m : List MergedRow) : (IPC_indice m).length = m.length := by
  simp [IPC_indice, cumprodAux_length]

theorem cumprodAux_getD_succ (a : ℚ) (l : List ℚ) (i : ℕ) (h : i + 1 < l.length) :
    (cumprodAux a l).getD (i + 1) 0 = (cumprodAux a l).getD i 0 * l.getD (i + 1) 0 := by
  induction l generalizing a i with
  | nil => simp at h
  | cons x xs ih =>
    cases i with
    | zero =>
      cases xs with
      | nil => simp at h
      | cons y ys => simp [cumprodAux]
    | succ j =>
      have h' : j + 1 < xs.length := by simpa using h
      simpa [cumprodAux] using ih (a * x) j h'

theorem cumprodAux_mem_pos (a : ℚ) (l : List ℚ) (ha : 0 < a) (hl : ∀ y ∈ l, 0 < y) :
    ∀ x ∈ cumprodAux a l, 0 < x := by
  induction l generalizing a with
  | nil => simp [cumprodAux]
  | cons y ys ih =>
    intro x hx
    have hy : 0 < y := hl y (by simp)
    rcases (by simpa [cumprodAux] using hx : x = a * y ∨ x ∈ cumprodAux (a * y) ys) with h | h
    · subst h; exact mul_pos ha hy
    · exact ih (a * y) (mul_pos ha hy) (fun z hz => hl z (by simp [hz])) x h

theorem cumprodAux_mem_ne_zero (a : ℚ) (l : List ℚ) (ha : a ≠ 0) (hl : ∀ y ∈ l, y ≠ 0) :
    ∀ x ∈ cumprodAux a l, x ≠ 0 := by
  induction l generalizing a with
  | nil => simp [cumprodAux]
  | cons y ys ih =>
    intro x hx
    have hy : y ≠ 0 := hl y (by simp)
    rcases (by simpa [cumprodAux] using hx : x = a * y ∨ x ∈ cumprodAux (a * y) ys) with h | h
    · subst h; exact mul_ne_zero ha hy
    · exact ih (a * y) (mul_ne_zero ha hy) (fun z hz => hl z (by simp [hz])) x h

theorem getD_map_q {α : Type} [Inhabited α] (g : α → ℚ) (m : List α) (i : ℕ) (h : i < m.length) :
    (m.map g).getD i 0 = g (m.getD i default) := by
  induction m generalizing i with
  | nil => simp at h
  | cons r rest ih =>
    cases i with
    | zero => simp
    | succ j => simpa using ih j (by simpa using h)

theorem getD_zipWith_q (f : ℚ → ℚ → ℚ) (as bs : List ℚ) (i : ℕ)
    (h1 : i < as.length) (h2 : i < bs.length) :
    (List.zipWith f as bs).getD i 0 = f (as.getD i 0) (bs.getD i 0) := by
  induction as generalizing bs i with
  | nil => simp at h1
  | cons a as ih =>
    cases bs with
    | nil => simp at h2
    | cons b bs =>
      cases i with
      | zero => simp
      | succ j => simpa using ih bs j (by simpa using h1) (by simpa using h2)

theorem value_real_getD (m : List MergedRow) (i : ℕ) (h : i < m.length) :
    (value_real m).getD i 0
      = (m.getD i default).value * ((IPC_indice m).getD 0 0 / (IPC_indice m).getD i 0) := by
  unfold value_real
  rw [getD_zipWith_q _ _ _ i (by simpa using h) (by rw [IPC_indice_length]; exact h)]
  rw [getD_map_q _ _ _ h]

theorem IPC_indice_cons_getD_zero (r : MergedRow) (rest : List MergedRow) :
    (IPC_indice (r :: rest)).getD 0 0 = 100 * (1 + r.IPC / 100) := rfl

theorem one_add_div_ne_zero (q : ℚ) (h : q ≠ -100) : 1 + q / 100 ≠ 0 := by
  intro h0
  apply h
  linarith

theorem IPC_indice_getD_ne_zero (m : List MergedRow) (hall : ∀ r ∈ m, r.IPC ≠ -100)
    (i : ℕ) (h : i < m.length) : (IPC_indice m).getD i 0 ≠ 0 := by
  have hi : i < (IPC_indice m).length := by rw [IPC_indice_length]; exact h
  have hmem : (IPC_indice m).getD i 0 ∈ IPC_indice m := by
    rw [List.getD_eq_getElem _ _ hi]
    exact List.getElem_mem hi
  refine cumprodAux_mem_ne_zero 100 _ (by norm_num) ?_ _ hmem
  intro y hy
  rcases List.mem_map.mp hy with ⟨r, hr, rfl⟩
  exact one_add_div_ne_zero r.IPC (hall r hr)

/-- Claim C1 (amended): for every non-empty merged sequence whose first rate is
not exactly -100 percent, the cumulative index satisfies
index[0] = 100*(1+rate[0]/100) and index[i] = index[i-1]*(1+rate[i]/100),
value_real[i] = value[i]*index[0]/index[i], and value_real[0] = value[0]. -/
theorem C1_anchoring (m : List MergedRow) (hne : m ≠ [])
    (h0 : (m.headD default).IPC ≠ -100) :
    (IPC_indice m).getD 0 0 = 100 * (1 + (m.headD default).IPC / 100) ∧
    (∀ i, i + 1 < m.length →
      (IPC_indice m).getD (i + 1) 0
        = (IPC_indice m).getD i 0 * (1 + (m.getD (i + 1) default).IPC / 100)) ∧
    (∀ i, i < m.length →
      (value_real m).getD i 0
        = (m.getD i default).value * ((IPC_indice m).getD 0 0 / (IPC_indice m).getD i 0)) ∧
    (value_real m).getD 0 0 = (m.headD default).value := by
  obtain ⟨r, rest, rfl⟩ : ∃ r rest, m = r :: rest := by
    cases m with
    | nil => exact absurd rfl hne
    | cons r rest => exact ⟨r, rest, rfl⟩
  refine ⟨by simpa using IPC_indice_cons_getD_zero r rest, ?_, ?_, ?_⟩
  · intro i hi
    unfold IPC_indice
    rw [cumprodAux_getD_succ 100 _ i (by simpa using hi)]
    congr 1
    exact getD_map_q _ _ _ hi
  · intro i hi
    exact value_real_getD _ i hi
  · have h := value_real_getD (r :: rest) 0 (by simp)
    rw [h, IPC_indice_cons_getD_zero]
    have hIPC : r.IPC ≠ -100 := by simpa using h0
    rw [div_self (mul_ne_zero (by norm_num) (one_add_div_ne_zero r.IPC hIPC)), mul_one]
    simp

/-- Witness for C1 at a concrete one-row series with rate 10 percent. -/
theorem C1_anchoring_witness :
    (value_real [(⟨⟨730120, 2000⟩, 5, 10⟩ : MergedRow)]).getD 0 0 = 5 := by
  have h := C1_anchoring [(⟨⟨730120, 2000⟩, 5, 10⟩ : MergedRow)] (by simp) (by norm_num)
  simpa using h.2.2.2

/-- Counterexample to C1 as stated: with first rate exactly -100 percent the
index base is 0 and value_real[0] is 0/0 (NaN in the floating-point code),
not value[0]. -/
theorem C1_anchoring_counterexample :
    (value_real [(⟨⟨730120, 2000⟩, 1, -100⟩ : MergedRow)]).getD 0 0
      ≠ ([(⟨⟨730120, 2000⟩, 1, -100⟩ : MergedRow)].headD default).value := by
  norm_num [value_real, IPC_indice, cumprodAux]

/-- Claim C2 (amended): provided no joined rate is exactly -100 percent (so
every index value is nonzero), re-inflating the deflated price recovers the
nominal price exactly over exact arithmetic:
value_real[i]*index[i]/index[0] = value[i]. -/
theorem C2_roundtrip (m : List MergedRow) (hall : ∀ r ∈ m, r.IPC ≠ -100)
    (i : ℕ) (hi : i < m.length) :
    (value_real m).getD i 0 * (IPC_indice m).getD i 0 / (IPC_indice m).getD 0 0
      = (m.getD i default).value := by
  have h0len : 0 < m.length := Nat.lt_of_le_of_lt (Nat.zero_le i) hi
  have hz : (IPC_indice m).getD 0 0 ≠ 0 := IPC_indice_getD_ne_zero m hall 0 h0len
  have hzi : (IPC_indice m).getD i 0 ≠ 0 := IPC_indice_getD_ne_zero m hall i hi
  rw [value_real_getD m i hi]
  generalize hA : (IPC_indice m).getD 0 0 = A at hz ⊢
  generalize hB : (IPC_indice m).getD i 0 = B at hzi ⊢
  field_simp

/-- Witness for C2 at a concrete one-row series. -/
theorem C2_roundtrip_witness :
    (value_real [(⟨⟨730120, 2000⟩, 7, 10⟩ : MergedRow)]).getD 0 0
        * (IPC_indice [(⟨⟨730120, 2000⟩, 7, 10⟩ : MergedRow)]).getD 0 0
        / (IPC_indice [(⟨⟨730120, 2000⟩, 7, 10⟩ : MergedRow)]).getD 0 0 = 7 := by
  have h := C2_roundtrip [(⟨⟨730120, 2000⟩, 7, 10⟩ : MergedRow)]
    (by intro r hr; rw [List.mem_singleton] at hr; subst hr; norm_num) 0 (by simp)
  simpa using h

/-- Counterexample to C2 as stated: with rate -100 percent the index is 0, the
round trip yields 0 (NaN in the floating-point code), not the nominal 1. -/
theorem C2_roundtrip_counterexample :
    (value_real [(⟨⟨730120, 2000⟩, 1, -100⟩ : MergedRow)]).getD 0 0
        * (IPC_indice [(⟨⟨730120, 2000⟩, 1, -100⟩ : MergedRow)]).getD 0 0
        / (IPC_indice [(⟨⟨730120, 2000⟩, 1, -100⟩ : MergedRow)]).getD 0 0
      ≠ ([(⟨⟨730120, 2000⟩, 1, -100⟩ : MergedRow)].getD 0 default).value := by
  norm_num [value_real, IPC_indice, cumprodAux]

/-- Claim C8 (amended): if every CPI rate is strictly greater than -100
percent, every value of the cumulative index is positive. -/
theorem C8_index_positive (m : List MergedRow) (h : ∀ r ∈ m, -100 < r.IPC) :
    ∀ x ∈ IPC_indice m, 0 < x := by
  refine cumprodAux_mem_pos 100 _ (by norm_num) ?_
  intro y hy
  rcases List.mem_map.mp hy with ⟨r, hr, rfl⟩
  have := h r hr
  linarith

/-- Witness for C8 at a concrete one-row series with rate 5 percent. -/
theorem C8_index_positive_witness :
    (0 : ℚ) < (IPC_indice [(⟨⟨730120, 2000⟩, 1, 5⟩ : MergedRow)]).getD 0 0 := by
  have h := C8_index_positive [(⟨⟨730120, 2000⟩, 1, 5⟩ : MergedRow)]
    (by intro r hr; rw [List.mem_singleton] at hr; subst hr; norm_num)
  refine h _ ?_
  rw [List.getD_eq_getElem _ _ (by rw [IPC_indice_length]; simp)]
  exact List.getElem_mem _

/-- Counterexample to C8 as stated (rates greater than or equal to -100): at
rate exactly -100 the index value is 0, which is not positive. -/
theorem C8_index_positive_counterexample :
    ¬ (∀ x ∈ IPC_indice [(⟨⟨730120, 2000⟩, 1, -100⟩ : MergedRow)], 0 < x) := by
  intro h
  have h0 := h 0 (by norm_num [IPC_indice, cumprodAux])
  exact absurd h0 (by norm_num)

theorem except_map_error_unit (e : Err) :
    (Except.error e : Except Err (ℚ × ℚ)).map (fun _ => ()) = Except.error e := rfl

theorem except_map_ok_unit (v : ℚ × ℚ) :
    (Except.ok v : Except Err (ℚ × ℚ)).map (fun _ => ()) = Except.ok () := rfl

theorem innerJoin_nil_right (gold : List PricePoint) : innerJoin gold [] = [] := by
  simp [innerJoin]

/-- Claim C3: on an empty CPI series the script renders the nominal-price
chart, then crashes with an index-out-of-bounds error at the
`ipc_base = df_oro_ipc["IPC"].iloc[0]` line; no CSV is written and no
further chart is rendered, but there is no named insufficient-data signal and
the first chart has already been produced. -/
theorem C3_empty_cpi (gold : List PricePoint) :
    runScript gold [] = ([Artifact.chartNominal], Except.error Err.indexOutOfBounds) := by
  have h : innerJoin (filterSince2000 gold) [] = [] := innerJoin_nil_right _
  simp [runScript, h]

theorem wholeCagrStage_error (m : List MergedRow) (e : Err)
    (h : wholeCagrStage m = Except.error e) : e = Err.zeroDivision := by
  simp only [wholeCagrStage] at h
  split at h
  · exact (Except.error.inj h).symm
  · simp at h

/-- Claim C4 (amended): a failure aborts the run at the failing stage with no
recovery, so exactly the artifacts of the stages already passed remain: an
empty-join failure leaves only the nominal-price chart (no CSV), while a
zero-duration whole-period-CAGR failure happens after every artifact —
all five charts and the CSV — has been produced. -/
theorem C4_failure_artifacts (gold : List PricePoint) (ipc : List CpiRecord) (e : Err)
    (h : (runScript gold ipc).2 = Except.error e) :
    (runScript gold ipc).1
      = if e = Err.indexOutOfBounds then [Artifact.chartNominal] else fullArtifacts := by
  simp only [runScript] at h ⊢
  by_cases hm : (innerJoin (filterSince2000 gold) ipc).isEmpty
  · rw [if_pos hm] at h ⊢
    simp at h
    simp [h]
  · rw [if_neg hm] at h ⊢
    rcases hs : wholeCagrStage (innerJoin (filterSince2000 gold) ipc) with e' | v
    · rw [hs, except_map_error_unit] at h
      simp at h
      subst h
      have he : e' = Err.zeroDivision := wholeCagrStage_error _ _ hs
      subst he
      simp
    · rw [hs, except_map_ok_unit] at h
      simp at h

/-- Witness for C4 at a single-overlap input: the CAGR stage fails yet every
artifact, the CSV included, has been produced. -/
theorem C4_failure_artifacts_witness :
    (runScript [(⟨⟨730120, 2000⟩, 1⟩ : PricePoint)]
        [(⟨⟨730120, 2000⟩, 0⟩ : CpiRecord)]).1 = fullArtifacts := by
  have herr : (runScript [(⟨⟨730120, 2000⟩, 1⟩ : PricePoint)]
      [(⟨⟨730120, 2000⟩, 0⟩ : CpiRecord)]).2 = Except.error Err.zeroDivision := by
    norm_num [runScript, innerJoin, filterSince2000, epoch2000, wholeCagrStage,
      n_years, value_real, IPC_indice, cumprodAux, List.find?]
    simp [except_map_error_unit]
  have h := C4_failure_artifacts _ _ Err.zeroDivision herr
  rw [if_neg (by decide)] at h
  exact h

/-- Counterexample to C4 as stated: on a one-month overlap the whole-period
CAGR stage fails with the zero-duration division error, yet the CSV artifact
(and every chart) has already been produced — the claim says no output
artifact is produced when any stage fails. -/
theorem C4_atomicity_counterexample :
    (runScript [(⟨⟨730120, 2000⟩, 1⟩ : PricePoint)]
        [(⟨⟨730120, 2000⟩, 0⟩ : CpiRecord)]).2 = Except.error Err.zeroDivision ∧
      Artifact.csvFile ∈ (runScript [(⟨⟨730120, 2000⟩, 1⟩ : PricePoint)]
        [(⟨⟨730120, 2000⟩, 0⟩ : CpiRecord)]).1 := by
  constructor
  · norm_num [runScript, innerJoin, filterSince2000, epoch2000, wholeCagrStage,
      n_years, value_real, IPC_indice, cumprodAux, List.find?]
    simp [except_map_error_unit]
  · norm_num [runScript, innerJoin, filterSince2000, epoch2000, wholeCagrStage,
      n_years, value_real, IPC_indice, cumprodAux, List.find?]
    simp [fullArtifacts]

/-- Claim C5: the code has no non-positive-base guard — on a merged series
whose deflated prices are 1 then -1 a month apart, the whole-period CAGR
stage succeeds, handing the negative base -1 with the non-integer exponent
1461/124 to the floating-point power (which yields a complex/NaN value in
Python) instead of signalling an error. -/
theorem C5_negative_base_unguarded :
    wholeCagrStage [(⟨⟨730120, 2000⟩, 1, 0⟩ : MergedRow), ⟨⟨730151, 2000⟩, -1, 0⟩]
      = Except.ok (-1, 1461 / 124) := by
  norm_num [wholeCagrStage, n_years, value_real, IPC_indice, cumprodAux]

/-- Claim C6: for a merged series of exactly one record the whole-period CAGR
stage raises the zero-duration division error (`1 / n_years` with
`n_years = 0`). -/
theorem C6_single_period (m : List MergedRow) (h : m.length = 1) :
    wholeCagrStage m = Except.error Err.zeroDivision := by
  obtain ⟨r, rfl⟩ := List.length_eq_one.mp h
  simp [wholeCagrStage, n_years]

/-- Witness for C6 at a concrete single-record series. -/
theorem C6_single_period_witness :
    wholeCagrStage [(⟨⟨730120, 2000⟩, 1, 0⟩ : MergedRow)]
      = Except.error Err.zeroDivision :=
  C6_single_period _ rfl

theorem scaleValues_map_rates (k : ℚ) (m : List MergedRow) :
    (scaleValues k m).map (fun r => 1 + r.IPC / 100) = m.map fun r => 1 + r.IPC / 100 := by
  induction m with
  | nil => rfl
  | cons r rest ih => simp only [scaleValues, List.map_cons] at ih ⊢; rw [ih]

theorem IPC_indice_scale (k : ℚ) (m : List MergedRow) :
    IPC_indice (scaleValues k m) = IPC_indice m := by
  unfold IPC_indice
  rw [scaleValues_map_rates]

theorem scaleValues_map_value (k : ℚ) (m : List MergedRow) :
    (scaleValues k m).map (fun r => r.value)
      = (m.map fun r => r.value).map (fun v => k * v) := by
  induction m with
  | nil => rfl
  | cons r rest ih => simp only [scaleValues, List.map_cons] at ih ⊢; rw [ih]

theorem value_real_scale (k : ℚ) (m : List MergedRow) :
    value_real (scaleValues k m) = (value_real m).map fun v => k * v := by
  unfold value_real
  rw [IPC_indice_scale, scaleValues_map_value, List.map_zipWith, List.zipWith_map_left]
  congr 1
  funext a b
  ring

theorem getD_zero_map_mul (k : ℚ) (l : List ℚ) :
    (l.map fun v => k * v).getD 0 0 = k * l.getD 0 0 := by
  cases l <;> simp

theorem getLastD_map_mul (k : ℚ) (l : List ℚ) :
    (l.map fun v => k * v).getLastD 0 = k * l.getLastD 0 := by
  have h := List.getLastD_map (fun v => k * v) l 0
  simpa using h

theorem n_years_scale (k : ℚ) (m : List MergedRow) :
    n_years (scaleValues k m) = n_years m := by
  cases m with
  | nil => rfl
  | cons r rest =>
    have h1 : (scaleValues k (r :: rest)).getLastD default
        = (fun r : MergedRow => { r with value := k * r.value })
            ((r :: rest).getLastD default) := by
      simp only [scaleValues, List.map_cons, List.getLastD_cons]
      exact List.getLastD_map _ rest r
    unfold n_years
    rw [h1]
    simp [scaleValues]

theorem wholeCagrStage_scale (k : ℚ) (hk : k ≠ 0) (m : List MergedRow) :
    wholeCagrStage (scaleValues k m) = wholeCagrStage m := by
  simp only [wholeCagrStage]
  rw [n_years_scale, value_real_scale, getD_zero_map_mul, getLastD_map_mul,
    mul_div_mul_left _ _ hk]

/-- Claim C7: multiplying every nominal value of a merged series (with at
least two records) by a positive constant k leaves the whole-period CAGR
unchanged: k cancels in the ratio value_real[last]/value_real[first], and
the day span is untouched. -/
theorem C7_cagr_scale_invariant (m : List MergedRow) (k : ℚ) (hk : 0 < k)
    (_hlen : 2 ≤ m.length) :
    cagr (scaleValues k m) = cagr m := by
  unfold cagr
  rw [wholeCagrStage_scale k (ne_of_gt hk) m]

/-- Witness for C7 at a concrete two-record series with k = 2. -/
theorem C7_cagr_scale_invariant_witness :
    cagr (scaleValues 2 [(⟨⟨730120, 2000⟩, 1, 2⟩ : MergedRow), ⟨⟨730151, 2000⟩, 3, 4⟩])
      = cagr [(⟨⟨730120, 2000⟩, 1, 2⟩ : MergedRow), ⟨⟨730151, 2000⟩, 3, 4⟩] :=
  C7_cagr_scale_invariant _ 2 (by norm_num) (by simp)

/-- Claim C9 (amended): the CSV written at line 113 has exactly the eight
columns period, value, IPC (rate), IPC_indice (index), value_real,
real_monthly_change, real_cumulative_change, real_annualized_change; the
year column is added only after the write, so it is absent from the file. -/
theorem C9_csv_columns :
    columnsAtWrite = ["period", "value", "IPC", "IPC_indice", "value_real",
        "real_monthly_change", "real_cumulative_change", "real_annualized_change"] ∧
      columnsFinal = columnsAtWrite ++ ["year"] := by
  constructor <;> decide

/-- Counterexample to C9 as stated: the year column is not among the columns
of the table at the moment it is written to CSV. -/
theorem C9_csv_columns_counterexample : "year" ∉ columnsAtWrite := by decide

/-- Claim C10: the engine is a pure function of the two fetched series — two
runs on identical inputs produce identical merged tables, derived columns,
per-year CAGR data and whole-period CAGR outcome, and identical artifacts. -/
theorem C10_determinism (g g' : List PricePoint) (c c' : List CpiRecord)
    (hg : g = g') (hc : c = c') :
    computeAll g c = computeAll g' c' ∧ runScript g c = runScript g' c' := by
  subst hg
  subst hc
  exact ⟨rfl, rfl⟩

/-- Witness for C10 at a concrete input pair. -/
theorem C10_determinism_witness :
    computeAll [(⟨⟨730120, 2000⟩, 1⟩ : PricePoint)] []
      = computeAll [(⟨⟨730120, 2000⟩, 1⟩ : PricePoint)] [] :=
  (C10_determinism _ _ _ _ rfl rfl).1
